import Mathlib

/-!
Verification of the telegram-chat-scraper repository: a shallow embedding of
the Session/Client Wrapper (src/lib/telegram/client.ts), the HTTP stream and
fetch endpoints (src/app/api/telegram/...), and the client display component
(MessageList), together with theorems settling the spec claims.

Conventions of the embedding:
- JavaScript numbers that hold message/topic/peer identifiers are modelled as
  Nat (they are non-negative in the source's data).
- A JavaScript field-presence test on a reply header (the form
  `'replyToTopId' in msg.replyTo`) is modelled as `Option.isSome` of the
  corresponding optional field.
- `chatId.toString()` is applied up front: chat identifiers enter the
  embedding as the String the source compares against.
- Stateful code (the stream route's module variable, the wrapper's cached
  client, the display component's reconnect counter and message list) is
  modelled as explicit state passed through step functions.
-/

/-- The typed peer discriminator of the platform (Api.PeerUser /
Api.PeerChat / Api.PeerChannel). -/
inductive Peer where
  | user (userId : Nat)
  | chat (chatId : Nat)
  | channel (channelId : Nat)
  deriving DecidableEq, Repr

/-- Reply-thread metadata of a raw message (Api.MessageReplyHeader).
`replyToMsgId` and `replyToTopId` are optional; a JS presence test maps to
`isSome`. `forumTopic` is the boolean flag (absent = false). -/
structure ReplyHeader where
  replyToMsgId : Option Nat
  replyToTopId : Option Nat
  forumTopic : Bool
  deriving DecidableEq, Repr

/-- A raw Api.Message as the event handler in streamForumTopicMessages sees
it (the fields the source reads). -/
structure RawMessage where
  id : Nat
  message : String
  date : Nat
  fromId : Option Peer
  replyTo : Option ReplyHeader
  peerId : Option Peer
  deriving DecidableEq, Repr

/-- extractPeerId (client.ts): picks the id out of the typed peer
discriminator and renders it as a string. -/
def extractPeerId : Peer → String
  | .user u => toString u
  | .chat c => toString c
  | .channel c => toString c

/-- The peer-id string of a raw message computed at the top of the stream
filter: extractPeerId of peerId when present, else the empty string. -/
def msgChatId (m : RawMessage) : String :=
  match m.peerId with
  | some p => extractPeerId p
  | none => ""

/-- Boolean prefix test on character lists (no library dependence). -/
def leadsWith : List Char → List Char → Bool
  | [], _ => true
  | _ :: _, [] => false
  | p :: ps, c :: cs => p == c && leadsWith ps cs

/-- Remove the first occurrence of `pat` from `s` (JavaScript
String.prototype.replace with a string pattern and empty replacement:
only the FIRST occurrence is replaced, wherever it sits). -/
def removeFirstOcc (pat : List Char) : List Char → List Char
  | [] => []
  | c :: rest =>
    if leadsWith pat (c :: rest) then (c :: rest).drop pat.length
    else c :: removeFirstOcc pat rest

/-- chatId.toString().replace(PAT, EMPTY) as the source writes it. -/
def jsReplaceFirst (s pat : String) : String :=
  String.mk (removeFirstOcc pat.data s.data)

/-- The supergroup marker string the chat filter strips. -/
def supergroupMarker : String := "-100"

/-- The chat filter of streamForumTopicMessages: the message's peer id
string equals the chat id string, or equals it with the first occurrence
of the supergroup marker removed. -/
def chatMatches (chatId : String) (m : RawMessage) : Bool :=
  msgChatId m == chatId || msgChatId m == jsReplaceFirst chatId supergroupMarker

/-- The general-topic branch of the topic filter (topicId equals the
configured TOPIC_ID): accept when there is no reply header, or the reply
header carries replyToTopId equal to the literal 1, or its forumTopic flag
is set. -/
def generalAccept (m : RawMessage) : Bool :=
  match m.replyTo with
  | none => true
  | some r => r.replyToTopId == some 1 || r.forumTopic

/-- The specific-topic branch of the topic filter: accept only when a reply
header is present and its replyToTopId equals the subscribed topic. -/
def topicAccept (topicId : Nat) (m : RawMessage) : Bool :=
  match m.replyTo with
  | none => false
  | some r => r.replyToTopId == some topicId

/-- The full acceptance predicate of subscribe's event handler
(streamForumTopicMessages): chat filter, then the general or the specific
topic branch depending on whether topicId equals the configured general
topic id (Number(process.env.TOPIC_ID), here envTopicId). -/
def subscribeAccepts (envTopicId : Nat) (chatId : String) (topicId : Nat)
    (m : RawMessage) : Bool :=
  chatMatches chatId m &&
    (if topicId == envTopicId then generalAccept m else topicAccept topicId m)

/-- The thread root of a raw message as parseMessage extracts it into
topicId: replyToTopId when present, otherwise replyToMsgId when the
forumTopic flag is set, otherwise none. -/
def threadRoot (m : RawMessage) : Option Nat :=
  match m.replyTo with
  | none => none
  | some r =>
    match r.replyToTopId with
    | some t => some t
    | none => if r.forumTopic then r.replyToMsgId else none

/-- Concrete raw message refuting the iff of claim C1: it carries a reply
header with the forumTopic flag set and thread root 42. -/
def c1CounterMsg : RawMessage :=
  { id := 10, message := "hi", date := 0, fromId := none,
    replyTo := some { replyToMsgId := some 42, replyToTopId := none, forumTopic := true },
    peerId := some (Peer.chat 5) }

/-- Claim C1 as stated is false: with the configured general topic id 1 and
topicId 1, this chat-matching message has reply metadata and thread root 42,
which is not the general topic, yet the filter accepts it (via the
forumTopic flag). -/
theorem c1_filter_iff_counterexample :
    subscribeAccepts 1 "5" 1 c1CounterMsg = true ∧
    c1CounterMsg.replyTo ≠ none ∧ threadRoot c1CounterMsg ≠ some 1 := by
  refine ⟨by decide, by decide, by decide⟩

/-- Claim C1 (amended): when topicId equals the configured general topic
id, the filter accepts a chat-matching raw message iff it has no reply
header, or the reply header's replyToTopId is the literal 1, or the
header's forumTopic flag is set; in particular every chat-matching message
with no reply metadata is accepted. -/
theorem general_topic_filter_characterization (env : Nat) (chatId : String)
    (m : RawMessage) (hchat : chatMatches chatId m = true) :
    (subscribeAccepts env chatId env m = true ↔
      (m.replyTo = none ∨
        ∃ r, m.replyTo = some r ∧ (r.replyToTopId = some 1 ∨ r.forumTopic = true))) ∧
    (m.replyTo = none → subscribeAccepts env chatId env m = true) := by
  have hacc : subscribeAccepts env chatId env m = generalAccept m := by
    simp [subscribeAccepts, hchat]
  constructor
  · rw [hacc]
    cases hmr : m.replyTo with
    | none => simp [generalAccept, hmr]
    | some r => simp [generalAccept, hmr]
  · intro hnone
    rw [hacc]
    simp [generalAccept, hnone]

/-- Concrete chat-matching message with no reply metadata, for the C1
witness. -/
def c1WitnessMsg : RawMessage :=
  { id := 3, message := "root", date := 0, fromId := some (Peer.user 8),
    replyTo := none, peerId := some (Peer.chat 7) }

/-- Witness for the amended C1 theorem at a concrete input. -/
theorem general_topic_filter_characterization_witness :
    subscribeAccepts 1 "7" 1 c1WitnessMsg = true :=
  (general_topic_filter_characterization 1 "7" c1WitnessMsg (by decide)).2 rfl

/-- Claim C2: when topicId differs from the configured general topic id,
the filter accepts a raw message only if its thread root is exactly
topicId, and rejects every message whose thread root differs from topicId. -/
theorem specific_topic_filter_sound (env : Nat) (chatId : String)
    (topicId : Nat) (m : RawMessage) (hne : topicId ≠ env) :
    (subscribeAccepts env chatId topicId m = true → threadRoot m = some topicId) ∧
    (threadRoot m ≠ some topicId → subscribeAccepts env chatId topicId m = false) := by
  have hbeq : (topicId == env) = false := by
    simp [hne]
  have hsub : subscribeAccepts env chatId topicId m =
      (chatMatches chatId m && topicAccept topicId m) := by
    simp [subscribeAccepts, hbeq]
  have sound : subscribeAccepts env chatId topicId m = true →
      threadRoot m = some topicId := by
    intro hacc
    rw [hsub, Bool.and_eq_true] at hacc
    obtain ⟨-, htop⟩ := hacc
    cases hmr : m.replyTo with
    | none => simp [topicAccept, hmr] at htop
    | some r =>
      simp only [topicAccept, hmr] at htop
      have hrt : r.replyToTopId = some topicId := beq_iff_eq.mp htop
      simp [threadRoot, hmr, hrt]
  refine ⟨sound, fun hroot => ?_⟩
  cases hb : subscribeAccepts env chatId topicId m with
  | false => rfl
  | true => exact absurd (sound hb) hroot

/-- Concrete message in topic 5 for the C2 witness. -/
def c2WitnessMsg : RawMessage :=
  { id := 11, message := "in topic 5", date := 0, fromId := none,
    replyTo := some { replyToMsgId := some 9, replyToTopId := some 5, forumTopic := false },
    peerId := some (Peer.chat 7) }

/-- Witness for the C2 theorem at a concrete input: topic 5, general id 1. -/
theorem specific_topic_filter_sound_witness :
    threadRoot c2WitnessMsg = some 5 :=
  (specific_topic_filter_sound 1 "7" 5 c2WitnessMsg (by decide)).1 (by decide)

/-- Modelled from the claim's words, for comparison with the code: remove
the supergroup marker only when it is a LEADING prefix of the chat id. -/
def stripLeadingMarker (s : String) : String :=
  if leadsWith supergroupMarker.data s.data then
    String.mk (s.data.drop supergroupMarker.data.length)
  else s

/-- Concrete message refuting claim C10 as stated: its peer id is 23. -/
def c10CounterMsg : RawMessage :=
  { id := 1, message := "x", date := 0, fromId := none, replyTo := none,
    peerId := some (Peer.chat 23) }

/-- Claim C10 as stated is false: JavaScript replace removes the FIRST
occurrence of the marker anywhere, not only a leading prefix. For the chat
id string 2-1003 the code strips the inner marker and accepts a message
whose peer id is 23, although 23 is neither the chat id nor the chat id
with a leading marker removed. -/
theorem c10_chat_filter_counterexample :
    chatMatches "2-1003" c10CounterMsg = true ∧
    msgChatId c10CounterMsg ≠ "2-1003" ∧
    msgChatId c10CounterMsg ≠ stripLeadingMarker "2-1003" := by
  refine ⟨by decide, by decide, by decide⟩

/-- If the pattern leads the list, removing its first occurrence is
dropping the pattern's length from the front. -/
theorem removeFirstOcc_of_leadsWith (pat s : List Char)
    (h : leadsWith pat s = true) :
    removeFirstOcc pat s = s.drop pat.length := by
  cases s with
  | nil => simp [removeFirstOcc]
  | cons c rest => simp [removeFirstOcc, h]

/-- Claim C10 (amended): the chat filter accepts iff the peer id string
equals the chat id or equals the chat id with the first occurrence of the
supergroup marker removed; when the chat id BEGINS with the marker, that
coincides with stripping the leading prefix, so a marker-prefixed chat id
matches peer ids lacking the prefix. -/
theorem chat_filter_characterization (chatId : String) (m : RawMessage)
    (hpre : leadsWith supergroupMarker.data chatId.data = true) :
    chatMatches chatId m = true ↔
      (msgChatId m = chatId ∨ msgChatId m = stripLeadingMarker chatId) := by
  have key : jsReplaceFirst chatId supergroupMarker = stripLeadingMarker chatId := by
    simp [jsReplaceFirst, stripLeadingMarker, hpre,
      removeFirstOcc_of_leadsWith _ _ hpre]
  simp [chatMatches, key]

/-- Concrete message whose peer id 555 lacks the marker prefix, for the
C10 witness with chat id -100555. -/
def c10WitnessMsg : RawMessage :=
  { id := 2, message := "y", date := 0, fromId := none, replyTo := none,
    peerId := some (Peer.channel 555) }

/-- Witness for the amended C10 theorem: the marker-prefixed chat id
-100555 matches the unprefixed peer id 555. -/
theorem chat_filter_characterization_witness :
    chatMatches "-100555" c10WitnessMsg = true :=
  (chat_filter_characterization "-100555" c10WitnessMsg (by decide)).mpr
    (Or.inr (by decide))

/-- A message as the client display component (MessageList) stores it. -/
structure ClientMessage where
  id : Nat
  text : String
  date : Nat
  fromId : Option String
  replyToMsgId : Option Nat
  deriving DecidableEq, Repr

/-- The message-event handler of MessageList: if some entry already has the
incoming id, keep the list unchanged; else prepend the new message and keep
the first 100 entries. -/
def applyMessageEvent (prev : List ClientMessage) (m : ClientMessage) :
    List ClientMessage :=
  if prev.any (fun x => x.id == m.id) then prev
  else (m :: prev).take 100

/-- Invariant of the display list: pairwise-distinct ids and at most 100
entries. -/
def MsgListInv (l : List ClientMessage) : Prop :=
  (l.map (fun x => x.id)).Nodup ∧ l.length ≤ 100

/-- One message event preserves the display-list invariant. -/
theorem applyMessageEvent_inv (prev : List ClientMessage) (m : ClientMessage)
    (h : MsgListInv prev) : MsgListInv (applyMessageEvent prev m) := by
  unfold applyMessageEvent
  by_cases hmem : prev.any (fun x => x.id == m.id) = true
  · rw [if_pos hmem]; exact h
  · rw [if_neg hmem]
    have hnot : m.id ∉ prev.map (fun x => x.id) := by
      intro hc
      rcases List.mem_map.mp hc with ⟨x, hx, hxid⟩
      exact hmem (List.any_eq_true.mpr ⟨x, hx, by simp [hxid]⟩)
    constructor
    · have h1 : ((m :: prev).map (fun x => x.id)).Nodup := by
        simp only [List.map_cons]
        exact List.nodup_cons.mpr ⟨hnot, h.1⟩
      rw [List.map_take]
      exact List.Nodup.sublist (List.take_sublist 100 _) h1
    · rw [List.length_take]
      exact min_le_left 100 _

/-- Any sequence of message events preserves the display-list invariant. -/
theorem foldl_applyMessageEvent_inv (init : List ClientMessage)
    (h : MsgListInv init) (evs : List ClientMessage) :
    MsgListInv (List.foldl applyMessageEvent init evs) := by
  induction evs generalizing init with
  | nil => exact h
  | cons e rest ih => exact ih _ (applyMessageEvent_inv init e h)

/-- Claim C3: starting from any list satisfying the invariant, after every
sequence of message events each identifier occurs at most once and the list
holds at most 100 entries; a message whose id is not yet present is
prepended as the most recent entry. -/
theorem messageList_dedup_bounded_prepend (init : List ClientMessage)
    (h : MsgListInv init) :
    (∀ evs : List ClientMessage,
      MsgListInv (List.foldl applyMessageEvent init evs)) ∧
    (∀ m : ClientMessage, init.any (fun x => x.id == m.id) = false →
      (applyMessageEvent init m).head? = some m) := by
  refine ⟨fun evs => foldl_applyMessageEvent_inv init h evs, fun m hm => ?_⟩
  unfold applyMessageEvent
  rw [if_neg (by simp [hm])]
  rw [show (100 : Nat) = 99 + 1 from rfl, List.take_succ_cons]
  rfl

/-- Witness for the C3 theorem: a duplicated id folded from the empty
list, evaluated through the theorem at that concrete input. -/
theorem messageList_dedup_bounded_prepend_witness :
    MsgListInv (List.foldl applyMessageEvent []
      [{ id := 1, text := "a", date := 0, fromId := none, replyToMsgId := none },
       { id := 1, text := "a", date := 0, fromId := none, replyToMsgId := none },
       { id := 2, text := "b", date := 0, fromId := none, replyToMsgId := none }]) :=
  (messageList_dedup_bounded_prepend [] ⟨List.nodup_nil, by simp⟩).1 _

/-- The exponential backoff delay of MessageList.reconnect for a given
value of the attempt counter: min(1000 * 2^attempts, 30000) ms. -/
def reconnectDelay (attempts : Nat) : Nat :=
  min (1000 * 2 ^ attempts) 30000

/-- The channel events the reconnect logic of the display component reacts
to: a channel error (onerror / watchdog timeout) and a successful open. -/
inductive ChannelEvent where
  | channelError
  | openSuccess
  deriving DecidableEq, Repr

/-- The reconnect-attempt counter transition: a channel error schedules a
reconnect whose timeout increments the counter after firing;
eventSource.onopen resets the counter to zero. -/
def stepAttempts (a : Nat) : ChannelEvent → Nat
  | .channelError => a + 1
  | .openSuccess => 0

/-- The sequence of backoff delays scheduled while processing a list of
channel events from attempt counter a: each error records the delay read
from the counter BEFORE the post-fire increment. -/
def scheduledDelays : Nat → List ChannelEvent → List Nat
  | _, [] => []
  | a, ChannelEvent.channelError :: rest =>
    reconnectDelay a :: scheduledDelays (a + 1) rest
  | _, ChannelEvent.openSuccess :: rest => scheduledDelays 0 rest

/-- The i-th delay scheduled over n consecutive errors from counter a. -/
theorem scheduledDelays_replicate_get (n : Nat) :
    ∀ a i, i < n →
      (scheduledDelays a (List.replicate n ChannelEvent.channelError))[i]? =
        some (reconnectDelay (a + i)) := by
  induction n with
  | zero => intro a i h; omega
  | succ k ih =>
    intro a i h
    rw [List.replicate_succ]
    cases i with
    | zero => simp [scheduledDelays]
    | succ j =>
      have hj : j < k := by omega
      have hadd : a + 1 + j = a + (j + 1) := by omega
      simp only [scheduledDelays]
      rw [List.getElem?_cons_succ, ih (a + 1) j hj, hadd]

/-- Claim C7: after N ≥ 1 consecutive channel errors with no successful
open, the Nth scheduled reconnect delay equals min(1000·2^(N-1), 30000)
milliseconds, and a successful open resets the attempt counter to zero. -/
theorem reconnect_backoff_formula (N : Nat) (hN : 1 ≤ N) :
    (scheduledDelays 0 (List.replicate N ChannelEvent.channelError))[N - 1]? =
      some (min (1000 * 2 ^ (N - 1)) 30000) ∧
    (∀ a, stepAttempts a ChannelEvent.openSuccess = 0) := by
  refine ⟨?_, fun a => rfl⟩
  rw [scheduledDelays_replicate_get N 0 (N - 1) (by omega)]
  simp [reconnectDelay]

/-- Witness for the C7 theorem: six consecutive errors hit the 30000 ms
cap on the sixth attempt. -/
theorem reconnect_backoff_formula_witness :
    (scheduledDelays 0 (List.replicate 6 ChannelEvent.channelError))[6 - 1]? =
      some (min (1000 * 2 ^ (6 - 1)) 30000) :=
  (reconnect_backoff_formula 6 (by decide)).1

/-- The wrapped client handle of TelegramService: its connected flag plus
an identity so that distinct instantiations are distinguishable. -/
structure TgClient where
  id : Nat
  connected : Bool
  deriving DecidableEq, Repr

/-- connect() of TelegramService: return the cached client when one exists
and is connected; otherwise construct a new client (given the next fresh
identity), connect it, cache it and return it. -/
def connect (cached : Option TgClient) (freshId : Nat) :
    Option TgClient × TgClient :=
  match cached with
  | some c =>
    if c.connected then (some c, c)
    else (some { id := freshId, connected := true },
          { id := freshId, connected := true })
  | none =>
    (some { id := freshId, connected := true },
     { id := freshId, connected := true })

/-- Claim C9: connect() is idempotent: with a live connected cached handle
it returns that very handle and leaves the cache unchanged (no new client
is created); otherwise it establishes, caches and returns a new connected
handle. -/
theorem connect_idempotent (cached : Option TgClient) (freshId : Nat) :
    (∀ c, cached = some c → c.connected = true →
      connect cached freshId = (cached, c)) ∧
    ((cached = none ∨ ∃ c, cached = some c ∧ c.connected = false) →
      connect cached freshId =
        (some { id := freshId, connected := true },
         { id := freshId, connected := true })) := by
  constructor
  · intro c hc hconn
    subst hc
    simp [connect, hconn]
  · intro h
    rcases h with hnone | ⟨c, hc, hconn⟩
    · subst hnone; rfl
    · subst hc; simp [connect, hconn]

/-- Witness for the C9 theorem: a live connected handle is returned as is. -/
theorem connect_idempotent_witness :
    connect (some { id := 3, connected := true }) 9 =
      (some { id := 3, connected := true }, { id := 3, connected := true }) :=
  (connect_idempotent (some { id := 3, connected := true }) 9).1
    { id := 3, connected := true } rfl rfl

/-- Process-wide state of the stream route module: the module-level
telegramService variable shared by every connection of the process, plus
the log of wrapper instances on which disconnect() has been called. -/
structure StreamModule where
  telegramService : Option Nat
  disconnected : List Nat
  deriving DecidableEq, Repr

/-- Opening a stream connection: construct a fresh wrapper instance and
store it in the module-level variable; the second component is the wrapper
this connection was set up with. -/
def openStreamConn (s : StreamModule) (freshWrapper : Nat) :
    StreamModule × Nat :=
  ({ s with telegramService := some freshWrapper }, freshWrapper)

/-- The teardown handler (cancel or abort) of ANY connection: it reads the
module-level variable and calls disconnect() on the wrapper found there. -/
def teardownStreamConn (s : StreamModule) : StreamModule :=
  match s.telegramService with
  | some w => { s with disconnected := s.disconnected ++ [w] }
  | none => s

/-- Claim C4 as stated is false: open connection A (fresh wrapper 1), then
connection B (fresh wrapper 2), then run A's teardown: disconnect() is
called on wrapper 2 — the other connection's wrapper, and never on A's own
wrapper 1 — because every teardown handler reads the shared module-level
variable. -/
theorem c4_shared_wrapper_counterexample :
    (teardownStreamConn
      (openStreamConn
        (openStreamConn { telegramService := none, disconnected := [] } 1).1
        2).1).disconnected = [2] ∧
    (openStreamConn { telegramService := none, disconnected := [] } 1).2 = 1 ∧
    (1 : Nat) ≠ 2 := by
  refine ⟨rfl, rfl, by decide⟩

/-- Claim C4 (amended): each connection does construct a fresh wrapper
instance, but the handle is kept in one shared module-level variable, so
teardown calls disconnect() on whatever wrapper that variable currently
holds — the most recently opened one — not necessarily the tearing-down
connection's own wrapper. -/
theorem stream_module_shared_teardown (s : StreamModule) (w : Nat) :
    (openStreamConn s w).1.telegramService = some w ∧
    (∀ v, s.telegramService = some v →
      (teardownStreamConn s).disconnected = s.disconnected ++ [v]) := by
  refine ⟨rfl, fun v hv => ?_⟩
  simp [teardownStreamConn, hv]

/-- Witness for the amended C4 theorem at a concrete module state. -/
theorem stream_module_shared_teardown_witness :
    (teardownStreamConn
      { telegramService := some 7, disconnected := [] }).disconnected =
      [] ++ [7] :=
  (stream_module_shared_teardown
    { telegramService := some 7, disconnected := [] } 0).2 7 rfl

/-- The normalizer's output record (ParsedMessage in client.ts). -/
structure ParsedMessage where
  id : Nat
  text : String
  date : Nat
  fromId : Option String
  replyToMsgId : Option Nat
  topicId : Option Nat
  deriving DecidableEq, Repr

/-- The platform message union as parseMessage discriminates it:
Api.Message, Api.MessageService (the fields the source reads), and the
remaining variants which parseMessage maps to null. -/
inductive TypeMessage where
  | message (m : RawMessage)
  | service (id : Nat) (date : Nat) (fromId : Option Peer)
  | other
  deriving DecidableEq, Repr

/-- parseMessage (client.ts): flatten a platform message into a
ParsedMessage; the topic id comes from the reply header (threadRoot), the
sender id from the typed peer discriminator; non-Message non-Service
variants yield null. -/
def parseMessage : TypeMessage → Option ParsedMessage
  | .message m =>
    some { id := m.id,
           text := m.message,
           date := m.date,
           fromId := m.fromId.map extractPeerId,
           replyToMsgId := m.replyTo.bind (fun r => r.replyToMsgId),
           topicId := threadRoot m }
  | .service i d f =>
    some { id := i, text := "[Service Message]", date := d,
           fromId := f.map extractPeerId,
           replyToMsgId := none, topicId := none }
  | .other => none

/-- A thrown platform error, carrying its message string. -/
structure TgError where
  message : String
  deriving DecidableEq, Repr

/-- getForumTopicMessages (client.ts): parse every platform message of the
upstream GetReplies result, keeping the parseable ones in order; a thrown
upstream error is logged and rethrown unchanged. -/
def getForumTopicMessages (upstream : Except TgError (List TypeMessage)) :
    Except TgError (List ParsedMessage) :=
  match upstream with
  | .error e => .error e
  | .ok raw => .ok (raw.filterMap parseMessage)

/-- The JSON envelope of the fetch endpoint (GET /api/telegram/messages);
fields the source omits in a branch are none here. -/
structure FetchResponse where
  status : Nat
  success : Bool
  topicId : Option Nat
  count : Option Nat
  messages : Option (List ParsedMessage)
  error : Option String
  details : Option String
  deriving DecidableEq, Repr

/-- The fetch endpoint's catch branch as a function of the thrown error:
status 500 with a fixed generic error string and the thrown message as
details. -/
def fetchCatch (e : TgError) : FetchResponse :=
  { status := 500, success := false, topicId := none, count := none,
    messages := none, error := some "Failed to fetch messages",
    details := some e.message }

/-- The GET handler of the fetch endpoint: call the wrapper; on success a
200 envelope with success, topicId, the messages and their count; every
thrown error lands in the catch branch (no exception escapes — the handler
is a total function of the wrapper call's outcome). -/
def messagesGET (upstream : Except TgError (List TypeMessage))
    (topicId : Nat) : FetchResponse :=
  match getForumTopicMessages upstream with
  | .ok msgs =>
    { status := 200, success := true, topicId := some topicId,
      count := some msgs.length, messages := some msgs,
      error := none, details := none }
  | .error e => fetchCatch e

/-- Claim C6: the fetch endpoint returns, on wrapper success, a success
envelope whose count equals the length of the messages array; on any
thrown wrapper error, a 500 envelope with success false, a generic error
and the thrown message as details — and nothing else, so no exception
escapes the handler. -/
theorem fetch_endpoint_envelope (upstream : Except TgError (List TypeMessage))
    (topicId : Nat) :
    (∀ msgs, getForumTopicMessages upstream = Except.ok msgs →
      messagesGET upstream topicId =
        { status := 200, success := true, topicId := some topicId,
          count := some msgs.length, messages := some msgs,
          error := none, details := none }) ∧
    (∀ e, getForumTopicMessages upstream = Except.error e →
      (messagesGET upstream topicId).status = 500 ∧
      (messagesGET upstream topicId).success = false ∧
      (messagesGET upstream topicId).error = some "Failed to fetch messages" ∧
      (messagesGET upstream topicId).details = some e.message) := by
  constructor
  · intro msgs hok
    simp [messagesGET, hok]
  · intro e herr
    simp [messagesGET, herr, fetchCatch]

/-- Witness for the C6 theorem: one parsed message, count 1. -/
theorem fetch_endpoint_envelope_witness :
    messagesGET (Except.ok [TypeMessage.service 4 100 none]) 1 =
      { status := 200, success := true, topicId := some 1,
        count := some [({ id := 4, text := "[Service Message]", date := 100,
                          fromId := none, replyToMsgId := none,
                          topicId := none } : ParsedMessage)].length,
        messages := some [{ id := 4, text := "[Service Message]", date := 100,
                            fromId := none, replyToMsgId := none,
                            topicId := none }],
        error := none, details := none } :=
  (fetch_endpoint_envelope (Except.ok [TypeMessage.service 4 100 none]) 1).1
    [{ id := 4, text := "[Service Message]", date := 100, fromId := none,
       replyToMsgId := none, topicId := none }] rfl

/-- The platform's forum-topic union (Api.ForumTopic vs
Api.ForumTopicDeleted), with the fields getForumTopics reads. -/
inductive TypeForumTopic where
  | topic (id : Nat) (title : String) (unreadCount : Option Nat)
      (topMessage : Option Nat) (date : Nat) (closed : Bool) (pinned : Bool)
  | deleted (id : Nat)
  deriving DecidableEq, Repr

/-- The TopicInfo record (ForumTopicInfo in client.ts). -/
structure ForumTopicInfo where
  id : Nat
  title : String
  unreadCount : Nat
  lastMessageId : Option Nat
  date : Nat
  closed : Bool
  pinned : Bool
  deriving DecidableEq, Repr

/-- The per-topic mapping of getForumTopics: survivors of the
ForumTopic type guard are flattened (with || 0 and || false defaults),
deleted variants are dropped. -/
def toForumTopicInfo : TypeForumTopic → Option ForumTopicInfo
  | .topic i t u top d c p =>
    some { id := i, title := t, unreadCount := u.getD 0, lastMessageId := top,
           date := d, closed := c, pinned := p }
  | .deleted _ => none

/-- getForumTopics (client.ts): map the surviving topics; a thrown
upstream error — including CHANNEL_FORUM_MISSING when the chat has no
forum capability — is logged and rethrown unchanged. -/
def getForumTopics (upstream : Except TgError (List TypeForumTopic)) :
    Except TgError (List ForumTopicInfo) :=
  match upstream with
  | .error e => .error e
  | .ok raw => .ok (raw.filterMap toForumTopicInfo)

/-- The platform error thrown when the chat has no forum capability. -/
def forumMissingError : TgError := { message := "CHANNEL_FORUM_MISSING" }

/-- Substring test on character lists (JavaScript
String.prototype.includes). -/
def containsSub (pat : List Char) : List Char → Bool
  | [] => pat.isEmpty
  | c :: rest => leadsWith pat (c :: rest) || containsSub pat rest

/-- The standalone topics script's error branch: a specific user-facing
notice when the error message includes CHANNEL_FORUM_MISSING, a generic
line otherwise. -/
def scriptErrorNotice (e : TgError) : String :=
  if containsSub "CHANNEL_FORUM_MISSING".data e.message.data then
    "This supergroup does not have forum topics enabled."
  else
    "Error: " ++ e.message

/-- Claim C5 as stated is false at the cited caller: getForumTopics
rethrows the forum-missing platform error unchanged (no distinct
UpstreamError value is produced), and the fetch endpoint's catch gives the
forum-missing failure exactly the same user-facing error string as a
generic failure. -/
theorem c5_no_distinct_upstream_error :
    getForumTopics (Except.error forumMissingError) =
      Except.error forumMissingError ∧
    (fetchCatch forumMissingError).error =
      (fetchCatch { message := "TIMEOUT" }).error := by
  exact ⟨rfl, rfl⟩

/-- Claim C5 (amended): when the chat has no forum capability the platform
error is rethrown unchanged by getForumTopics; the case is distinguishable
only by the CHANNEL_FORUM_MISSING substring of its message. The standalone
topics script checks that substring and prints a specific user-facing
notice, while the fetch endpoint's catch returns the same generic envelope
as for every other failure (the platform text surviving only in details). -/
theorem forum_missing_error_signalling (e : TgError)
    (h : containsSub "CHANNEL_FORUM_MISSING".data e.message.data = true) :
    getForumTopics (Except.error e) = Except.error e ∧
    scriptErrorNotice e =
      "This supergroup does not have forum topics enabled." ∧
    (fetchCatch e).error = some "Failed to fetch messages" ∧
    (fetchCatch e).details = some e.message := by
  refine ⟨rfl, ?_, rfl, rfl⟩
  simp [scriptErrorNotice, h]

/-- Witness for the amended C5 theorem at the concrete platform error. -/
theorem forum_missing_error_signalling_witness :
    scriptErrorNotice forumMissingError =
      "This supergroup does not have forum topics enabled." :=
  (forum_missing_error_signalling forumMissingError (by decide)).2.1

/-- An event written to the stream route's push channel. -/
inductive SSEvent where
  | connectedEvt (topicId : Nat) (chatId : String)
  | messageEvt (topicId : Nat) (m : ParsedMessage)
  | pingEvt
  | errorEvt (msg : String)
  deriving DecidableEq, Repr

/-- Per-connection state of the stream route: the cooperative-cancellation
flag isStreamActive, whether the heartbeat interval is currently set,
whether disconnect() has been called on this connection's wrapper, and the
events enqueued so far. -/
structure StreamConn where
  isStreamActive : Bool
  heartbeatSet : Bool
  disconnectCalled : Bool
  enqueued : List SSEvent
  deriving DecidableEq, Repr

/-- What can happen to an established connection: the onMessage callback
fires for an accepted message, the heartbeat interval ticks, or a teardown
handler runs (explicit client cancellation and request abort share one
body). -/
inductive ConnEvent where
  | onMessage (topicId : Nat) (m : ParsedMessage)
  | heartbeatTick
  | teardown
  deriving DecidableEq, Repr

/-- One step of the stream connection.
onMessage returns without enqueuing unless isStreamActive; a heartbeat
tick fires only while the interval is set, clears the interval and returns
when the stream is inactive, else enqueues a ping; teardown sets the
inactive flag, clears the interval and calls disconnect(). -/
def streamStep (s : StreamConn) : ConnEvent → StreamConn
  | .onMessage topicId m =>
    if s.isStreamActive then
      { s with enqueued := s.enqueued ++ [SSEvent.messageEvt topicId m] }
    else s
  | .heartbeatTick =>
    if s.heartbeatSet then
      if s.isStreamActive then
        { s with enqueued := s.enqueued ++ [SSEvent.pingEvt] }
      else { s with heartbeatSet := false }
    else s
  | .teardown =>
    { s with isStreamActive := false, heartbeatSet := false,
             disconnectCalled := true }

/-- Once inactive, a single step keeps the connection inactive, never
re-arms the heartbeat, and enqueues nothing. -/
theorem streamStep_inactive (s : StreamConn) (hA : s.isStreamActive = false)
    (hH : s.heartbeatSet = false) (e : ConnEvent) :
    (streamStep s e).isStreamActive = false ∧
    (streamStep s e).heartbeatSet = false ∧
    (streamStep s e).enqueued = s.enqueued := by
  cases e with
  | onMessage t m => simp [streamStep, hA, hH]
  | heartbeatTick => simp [streamStep, hA, hH]
  | teardown => simp [streamStep]

/-- Folding any event sequence from an inactive connection leaves the
enqueued events unchanged. -/
theorem foldl_streamStep_frozen (evs : List ConnEvent) :
    ∀ s : StreamConn, s.isStreamActive = false → s.heartbeatSet = false →
      (List.foldl streamStep s evs).enqueued = s.enqueued := by
  induction evs with
  | nil => intro s _ _; rfl
  | cons e rest ih =>
    intro s hA hH
    obtain ⟨h1, h2, h3⟩ := streamStep_inactive s hA hH e
    rw [List.foldl_cons, ih _ h1 h2, h3]

/-- Claim C8: once a teardown handler has run, the inactive flag is set,
the heartbeat interval is cleared and disconnect() has been called; and no
further event — in particular no message event — is ever enqueued: every
subsequent sequence of onMessage callbacks, heartbeat ticks and further
teardowns leaves the enqueued events exactly as they were. -/
theorem stream_teardown_final (s : StreamConn) (evs : List ConnEvent) :
    (streamStep s ConnEvent.teardown).isStreamActive = false ∧
    (streamStep s ConnEvent.teardown).heartbeatSet = false ∧
    (streamStep s ConnEvent.teardown).disconnectCalled = true ∧
    (List.foldl streamStep (streamStep s ConnEvent.teardown) evs).enqueued =
      (streamStep s ConnEvent.teardown).enqueued := by
  refine ⟨rfl, rfl, rfl, ?_⟩
  exact foldl_streamStep_frozen evs _ rfl rfl
